import Mathlib

/-!
Verification of the `action` attribute transformation in `src/src/lib.rs`
(crate `russenger_macro`). The transformation receives a parsed function
item, keeps its visibility, name and parameter list, discards the rest of
the signature, and emits a function whose return type is the fixed
`std::pin::Pin<Box<dyn std::future::Future<Output = error::Result<()>>>>`
and whose body is the single expression `Box::pin(async move { original body })`.
The embedding below is token-level: source surfaces are lists of tokens
(strings), kept verbatim.
-/

namespace RussengerMacro

/-- A stream of Rust source tokens, in source order. -/
abbrev TokenStream := List String

/-- Function signature, mirroring the fields of `syn::Signature` that the
source either reads (`ident` at line 40, `inputs` at line 41) or receives
and ignores (const/async/unsafe qualifiers, ABI, generics, return type,
where-clause). Each surface piece is kept as its verbatim token list. -/
structure FnSig where
  constQual : Bool
  asyncQual : Bool
  unsafeQual : Bool
  abiQual : Option String
  ident : String
  generics : List String
  inputs : List String
  output : Option (List String)
  whereClause : List String
deriving DecidableEq

/-- A parsed function item, mirroring `syn::ItemFn` as produced at
`src/src/lib.rs` line 35: outer attributes (the `#[action]` marker itself is
consumed by the compiler before the item reaches the transformer, so it is
never among them), visibility, signature, and the body block's tokens,
kept opaque. -/
structure ItemFn where
  attrs : List (List String)
  vis : List String
  sig : FnSig
  block : List String
deriving DecidableEq

/-- Body expressions of an emitted declaration, with enough structure to
give them an execution order: a plain block, an `async move` block, and
`Box::pin(-)`. The source only ever emits `Box::pin(async move block)`
(line 47); the plain-block alternative is the immediate-execution shape the
transformation is there to avoid. -/
inductive Expr where
  | plainBlock : List String → Expr
  | asyncMoveBlock : List String → Expr
  | boxPin : Expr → Expr
deriving DecidableEq

/-- Serialize a body expression back to tokens, as `quote!` lays it out. -/
def Expr.tokens : Expr → List String
  | .plainBlock b => ["\x7b"] ++ b ++ ["\x7d"]
  | .asyncMoveBlock b => ["async", "move", "\x7b"] ++ b ++ ["\x7d"]
  | .boxPin e => ["Box", "::", "pin", "("] ++ Expr.tokens e ++ [")"]

/-- The emitted declaration: one field per slot of the `quote!` template at
`src/src/lib.rs` lines 45-49. -/
structure WrappedFn where
  vis : List String
  ident : String
  inputs : List String
  output : List String
  body : Expr
deriving DecidableEq

/-- The fixed synthesized return type of line 46, token for token:
`std::pin::Pin<Box<dyn std::future::Future<Output = error::Result<()>>>>`. -/
def fixedReturnType : List String :=
  ["std", "::", "pin", "::", "Pin", "<", "Box", "<", "dyn", "std", "::",
   "future", "::", "Future", "<", "Output", "=", "error", "::", "Result",
   "<", "(", ")", ">", ">", ">", ">"]

/-- The `action` transformation, mirroring `src/src/lib.rs` lines 38-49:
visibility, name and parameters are carried over verbatim, the return type
is unconditionally `fixedReturnType`, and the body is the single expression
`Box::pin(async move block)` with the original block moved in whole. The
attribute arguments `attr` are received and never read, as `_attr` is in the
source. -/
def action (attr : TokenStream) (input : ItemFn) : WrappedFn :=
  { vis := input.vis
    ident := input.sig.ident
    inputs := input.sig.inputs
    output := fixedReturnType
    body := Expr.boxPin (Expr.asyncMoveBlock input.block) }

/-- Serialize the emitted declaration to tokens, as the `quote!` template
lays it out: `#vis fn #ident(#inputs) -> <fixed type> { Box::pin(async move #block) }`. -/
def WrappedFn.tokens (w : WrappedFn) : List String :=
  w.vis ++ ["fn", w.ident, "("] ++ w.inputs ++ [")", "->"] ++ w.output
    ++ ["\x7b"] ++ Expr.tokens w.body ++ ["\x7d"]

/-- Qualifier tokens of an input signature, in Rust grammar order. -/
def FnSig.qualTokens (s : FnSig) : List String :=
  (if s.constQual then ["const"] else []) ++
  (if s.asyncQual then ["async"] else []) ++
  (if s.unsafeQual then ["unsafe"] else []) ++
  (match s.abiQual with
   | some a => ["extern", a]
   | none => [])

/-- The input item's whole source surface with its return-type annotation
removed (the marker attribute is already absent: an attribute macro never
receives its own marker). Used to render the claim that everything else is
carried over. -/
def ItemFn.surfaceNoRet (f : ItemFn) : List String :=
  f.attrs.flatten ++ f.vis ++ f.sig.qualTokens ++ ["fn", f.sig.ident]
    ++ f.sig.generics ++ ["("] ++ f.sig.inputs ++ [")"]
    ++ f.sig.whereClause ++ ["\x7b"] ++ f.block ++ ["\x7d"]

/-- Rendering of the claim that every token of the input surface outside
the return-type annotation and the marker is carried over into the emitted
declaration: each such token must at least occur somewhere in the output. -/
def carriesWholeSurface (f : ItemFn) : Prop :=
  ∀ t ∈ f.surfaceNoRet, t ∈ WrappedFn.tokens (action [] f)

instance (f : ItemFn) : Decidable (carriesWholeSurface f) :=
  List.decidableBAll _ _

/-- Outcome of one whole attribute-expansion: either the emitted
declaration or a fatal diagnostic that aborts compilation. -/
inductive MacroResult where
  | emitted : WrappedFn → MacroResult
  | compileError : String → MacroResult
deriving DecidableEq

/-- The declarations an expansion leaves standing where the marked item
stood: the emitted wrapper on success, nothing on a fatal diagnostic.
Modelled from the spec: an attribute expansion "entirely replaces the
annotated declaration at its original source position", and a failed
expansion "produces no output declaration". -/
def MacroResult.emittedDecls : MacroResult → List WrappedFn
  | .emitted w => [w]
  | .compileError _ => []

/-- Whether the expansion aborted with a diagnostic. -/
def MacroResult.isError : MacroResult → Bool
  | .emitted _ => false
  | .compileError _ => true

/-- Boolean test that `p` occurs as a contiguous run inside `l`. -/
def tokenInfix (p : List String) : List String → Bool
  | [] => p.isEmpty
  | s :: t => p.isPrefixOf (s :: t) || tokenInfix p t

/-- The full entry point of `src/src/lib.rs` lines 33-51. The parse stage
of line 35 is the external `syn` parser, so its result is taken as input.
Modelled from the spec: `parse_macro_input!` aborts the whole expansion
with a compile error when the tokens are not a valid function item, with no
recovery or partial acceptance; on success the rest of the function runs
and emission is total. -/
def actionPipeline (attr : TokenStream) (parsed : Except String ItemFn) :
    MacroResult :=
  match parsed with
  | .error e => .compileError e
  | .ok f => .emitted (action attr f)

/-- Values of the miniature runtime model: what evaluating an emitted body
produces. Modelled from the spec: the handle is "an owned, heap-allocated,
pinned ... handle to a future asynchronous computation". -/
inductive Val where
  | unitVal : Val
  | futureVal : List String → Val
  | pinnedBox : Val → Val
deriving DecidableEq

/-- Evaluate a body expression, returning the produced value together with
the original-body statements executed during evaluation, in order.
Modelled from the spec: a plain block runs its statements at once; an
`async move` block evaluates to a future and runs nothing yet; `Box::pin`
evaluates its argument, then heap-allocates and pins the resulting value
without running anything further. -/
def Expr.eval : Expr → Val × List String
  | .plainBlock b => (Val.unitVal, b)
  | .asyncMoveBlock b => (Val.futureVal b, [])
  | .boxPin e => (Val.pinnedBox (Expr.eval e).1, (Expr.eval e).2)

/-- Drive a value to completion: the statements the external driver runs.
Modelled from the spec: driving the pinned handle resolves the deferred
computation, executing the original body's statements. -/
def Val.drive : Val → List String
  | .unitVal => []
  | .futureVal b => b
  | .pinnedBox v => Val.drive v

/-- The input surface stripped down to the components the claim calls the
call-compatible core: no other attributes, no qualifiers, no generics, no
return annotation, no where-clause. -/
def ItemFn.coreOnly (f : ItemFn) : ItemFn :=
  { attrs := []
    vis := f.vis
    sig := { constQual := false, asyncQual := false, unsafeQual := false
             abiQual := none, ident := f.sig.ident, generics := []
             inputs := f.sig.inputs, output := none, whereClause := [] }
    block := f.block }

/-- A concrete marked input modelled on the doc example at
`src/src/lib.rs` lines 22-28, with a generic parameter added:
`async fn Main<MyT>(res: Res, req: Req) { }`. -/
def genericExample : ItemFn :=
  { attrs := []
    vis := []
    sig := { constQual := false, asyncQual := true, unsafeQual := false
             abiQual := none, ident := "Main"
             generics := ["<", "MyT", ">"]
             inputs := ["res", ":", "Res", ",", "req", ":", "Req"]
             output := none, whereClause := [] }
    block := ["println!", "(", "\"hi\"", ")", ";"] }

/-- The doc example itself, without generics:
`async fn Main(res: Res, req: Req) { ... }`. -/
def mainExample : ItemFn :=
  { attrs := []
    vis := []
    sig := { constQual := false, asyncQual := true, unsafeQual := false
             abiQual := none, ident := "Main"
             generics := []
             inputs := ["res", ":", "Res", ",", "req", ":", "Req"]
             output := none, whereClause := [] }
    block := ["println!", "(", "\"hi\"", ")", ";"] }

/-- `mainExample` with every ignored signature slot filled differently:
same visibility, name, parameters and body, but non-async, const, with a
return annotation and a where-clause. -/
def mainExampleVariant : ItemFn :=
  { attrs := [["#", "[", "inline", "]"]]
    vis := []
    sig := { constQual := true, asyncQual := false, unsafeQual := false
             abiQual := none, ident := "Main"
             generics := ["<", "MyT", ">"]
             inputs := ["res", ":", "Res", ",", "req", ":", "Req"]
             output := some ["u32"], whereClause := ["where", "MyT", ":", "Clone"] }
    block := ["println!", "(", "\"hi\"", ")", ";"] }

end RussengerMacro

namespace RussengerMacro

/-- C1: for every input item the emitted body is `Box::pin(async move block)`
with the original block carried in verbatim as one contiguous unit — its
serialization is a fixed prefix, the block's tokens unchanged, then a fixed
suffix — and the transformation is parametric in the block: replacing the
block replaces exactly that unit of the output and nothing else, so the
transformer never inspects, reorders, duplicates or drops body contents. -/
theorem c1_body_preserved (attr : TokenStream) (f : ItemFn) (b : List String) :
    (action attr f).body = Expr.boxPin (Expr.asyncMoveBlock f.block) ∧
    Expr.tokens (action attr f).body =
      ["Box", "::", "pin", "(", "async", "move", "\x7b"] ++ f.block
        ++ ["\x7d", ")"] ∧
    action attr { f with block := b } =
      { action attr f with body := Expr.boxPin (Expr.asyncMoveBlock b) } := by
  refine ⟨rfl, ?_, rfl⟩
  simp [action, Expr.tokens]

/-- C2 counterexample: on `async fn Main<MyT>(res: Res, req: Req) { ... }`
the generic-parameter token `MyT` is part of the input surface, is neither
the return-type annotation nor the marker, yet occurs nowhere in the
emitted output — so the return annotation and the marker are not the only
parts of the input surface that are not carried over. -/
theorem c2_counterexample : ¬ carriesWholeSurface genericExample := by
  decide

/-- C2 (amended): the emitted declaration's visibility, name and parameter
list are token-for-token identical to the input's; besides the return-type
annotation and the marker, the other signature components (other
attributes, qualifiers, generics, where-clause) are also not carried over —
the output only depends on the call-compatible core. -/
theorem c2_surface_identity (attr : TokenStream) (f : ItemFn) :
    (action attr f).vis = f.vis ∧
    (action attr f).ident = f.sig.ident ∧
    (action attr f).inputs = f.sig.inputs ∧
    action attr f = action attr f.coreOnly := by
  exact ⟨rfl, rfl, rfl, rfl⟩

/-- C3: the input's return-type annotation (absent or any token list) is
discarded — the emitted return type is unconditionally the fixed
synthesized pinned-boxed-future type, and two inputs differing only in
their return annotation yield identical output. -/
theorem c3_fixed_return (attr : TokenStream) (f : ItemFn)
    (o1 o2 : Option (List String)) :
    (action attr f).output = fixedReturnType ∧
    action attr { f with sig := { f.sig with output := o1 } } =
      action attr { f with sig := { f.sig with output := o2 } } := by
  exact ⟨rfl, rfl⟩

/-- C4: the emitted body is the single expression `Box::pin(async move block)`;
evaluating it at call time executes no statement of the original body and
returns the pinned heap handle holding the still-suspended body, and only
driving that handle afterwards executes exactly the original statements in
order. -/
theorem c4_deferred_execution (attr : TokenStream) (f : ItemFn) :
    (Expr.eval (action attr f).body).2 = [] ∧
    (Expr.eval (action attr f).body).1 = Val.pinnedBox (Val.futureVal f.block) ∧
    Val.drive (Expr.eval (action attr f).body).1 = f.block := by
  refine ⟨rfl, rfl, rfl⟩

/-- C5: when the marked tokens do not parse as a function item the whole
expansion aborts with that diagnostic and leaves no emitted declaration;
when they do parse, emission always succeeds and produces the wrapped
declaration — there is no lenient or partial mode. -/
theorem c5_fatal_on_malformed (attr : TokenStream) (e : String) (f : ItemFn) :
    actionPipeline attr (Except.error e) = MacroResult.compileError e ∧
    (actionPipeline attr (Except.error e)).isError = true ∧
    (actionPipeline attr (Except.error e)).emittedDecls = [] ∧
    actionPipeline attr (Except.ok f) = MacroResult.emitted (action attr f) ∧
    (actionPipeline attr (Except.ok f)).isError = false := by
  exact ⟨rfl, rfl, rfl, rfl, rfl⟩

/-- C6: a successful expansion leaves exactly one declaration standing in
place of the marked item — the wrapped function and nothing else — and,
whenever the carried-over pieces themselves contain no attribute-hash
token, neither does the whole output: the marker (and any other attribute)
is erased. -/
theorem c6_single_replacement (attr : TokenStream) (f : ItemFn)
    (h1 : "#" ∉ f.vis) (h2 : "#" ∉ f.sig.inputs) (h3 : "#" ∉ f.block)
    (h4 : f.sig.ident ≠ "#") :
    (actionPipeline attr (Except.ok f)).emittedDecls = [action attr f] ∧
    ((actionPipeline attr (Except.ok f)).emittedDecls).length = 1 ∧
    "#" ∉ WrappedFn.tokens (action attr f) := by
  refine ⟨rfl, rfl, ?_⟩
  intro hmem
  simp [WrappedFn.tokens, action, Expr.tokens, fixedReturnType,
    List.mem_append, List.mem_cons] at hmem
  rcases hmem with h | h | h | h
  · exact h1 h
  · exact h4 h.symm
  · exact h2 h
  · exact h3 h

/-- C6 witness: the guarantees instantiated at the doc example. -/
theorem c6_single_replacement_witness :
    (actionPipeline [] (Except.ok mainExample)).emittedDecls
        = [action [] mainExample] ∧
    ((actionPipeline [] (Except.ok mainExample)).emittedDecls).length = 1 ∧
    "#" ∉ WrappedFn.tokens (action [] mainExample) :=
  c6_single_replacement [] mainExample (by decide) (by decide) (by decide)
    (by decide)

/-- C7: the attribute arguments are a no-op — any two argument token
sequences produce identical results, on parse failures and on valid items
alike. -/
theorem c7_attr_ignored (a1 a2 : TokenStream) (parsed : Except String ItemFn) :
    actionPipeline a1 parsed = actionPipeline a2 parsed := by
  cases parsed <;> rfl

/-- C8: the transformation is uniform in the parameter list — replacing the
input's parameters by any token list (empty, one, or many parameters of any
types) replaces exactly the parameter slot of the output, leaving
visibility, name, return type and body untouched, and still succeeds. -/
theorem c8_parameter_uniformity (attr : TokenStream) (f : ItemFn)
    (ps : List String) :
    action attr { f with sig := { f.sig with inputs := ps } } =
      { action attr f with inputs := ps } ∧
    actionPipeline attr (Except.ok { f with sig := { f.sig with inputs := ps } })
      = MacroResult.emitted { action attr f with inputs := ps } := by
  exact ⟨rfl, rfl⟩

/-- C9: every signature component other than name and parameter list is
discarded — two inputs agreeing on visibility, name, parameters and body
but differing arbitrarily in attributes, const/async/unsafe qualifiers,
ABI, generics, return annotation and where-clause expand identically, and
the output's serialization is always a plain `fn` with nothing between the
visibility and `fn`, and nothing between the name and the parameter
parenthesis. -/
theorem c9_signature_discard (attr : TokenStream) (f g : ItemFn)
    (hv : f.vis = g.vis) (hi : f.sig.ident = g.sig.ident)
    (hp : f.sig.inputs = g.sig.inputs) (hb : f.block = g.block) :
    action attr f = action attr g ∧
    WrappedFn.tokens (action attr f) =
      f.vis ++ ["fn", f.sig.ident, "("] ++ f.sig.inputs ++ [")", "->"]
        ++ fixedReturnType
        ++ ["\x7b", "Box", "::", "pin", "(", "async", "move", "\x7b"]
        ++ f.block ++ ["\x7d", ")", "\x7d"] := by
  constructor
  · simp [action, hv, hi, hp, hb]
  · simp [action, WrappedFn.tokens, Expr.tokens]

/-- C9 witness: the doc example and its fully requalified variant (const
instead of async, an extra attribute, generics, a `u32` return annotation
and a where-clause) expand to the same output, of the stated plain shape. -/
theorem c9_signature_discard_witness :
    action [] mainExample = action [] mainExampleVariant ∧
    WrappedFn.tokens (action [] mainExample) =
      mainExample.vis ++ ["fn", mainExample.sig.ident, "("]
        ++ mainExample.sig.inputs ++ [")", "->"] ++ fixedReturnType
        ++ ["\x7b", "Box", "::", "pin", "(", "async", "move", "\x7b"]
        ++ mainExample.block ++ ["\x7d", ")", "\x7d"] :=
  c9_signature_discard [] mainExample mainExampleVariant rfl rfl rfl rfl

/-- C10: the emitted return type is the literal token sequence
`std::pin::Pin<Box<dyn std::future::Future<Output = error::Result<()>>>>`;
the `error::Result` path in it is relative (it occurs right after `=`, not
behind a leading `::`), and the trait object carries no `Send` or `Sync`
bound. -/
theorem c10_return_type_literal (attr : TokenStream) (f : ItemFn) :
    (action attr f).output =
      ["std", "::", "pin", "::", "Pin", "<", "Box", "<", "dyn", "std", "::",
       "future", "::", "Future", "<", "Output", "=", "error", "::", "Result",
       "<", "(", ")", ">", ">", ">", ">"] ∧
    tokenInfix ["=", "error", "::", "Result"] (action attr f).output = true ∧
    tokenInfix ["::", "error"] (action attr f).output = false ∧
    List.contains (action attr f).output "Send" = false ∧
    List.contains (action attr f).output "Sync" = false := by
  have h : (action attr f).output = fixedReturnType := rfl
  refine ⟨rfl, ?_, ?_, ?_, ?_⟩ <;> rw [h] <;> decide

end RussengerMacro
